import Mathlib

/-!
Verification of the emergency-flag registry (RaceUP assignment).

The repository ships the unit-test suite `emergency_tests.c` for an
emergency module whose implementation (`emergency_module.c/h`) is not part
of the sources.  The module operations are therefore modelled from the
specification (`spec.md`, sections 3, 4 and 6); the test harness itself is
embedded from `emergency_tests.c`.

Machine integers are modelled as `Nat`; the buffer bytes are `uint8_t`
values, kept below 256 by the readiness invariant `NodeInv`.  Status codes
(`int8_t`) are modelled as `Int`.
-/

/-- Modelled from the spec: `B`, the byte-buffer length of a Node
(`NUM_EMERGENCY_BUFFER` in the missing `emergency_module.h`); the reference
value is 8. -/
def NUM_EMERGENCY_BUFFER : Nat := 8

/-- Modelled from the spec: the capacity `C = 8 · B = 64` of a Node, the
number of distinct emergency IDs (the missing header's capacity constant). -/
def NUM_EMERGENCIES : Nat := NUM_EMERGENCY_BUFFER * 8

/-- Modelled from the spec: the per-instance Node state of the missing
`emergency_module.h` — a buffer of `B` bytes carrying 8 flag bits each and a
maintained population counter.  The mutex only serialises operations and has
no effect on the sequential state, so it is not represented. -/
@[ext]
structure EmergencyNode_t where
  emergency_buffer : Fin NUM_EMERGENCY_BUFFER → Nat
  emergency_counter : Nat

instance : DecidableEq EmergencyNode_t := fun a b =>
  if h : a.emergency_buffer = b.emergency_buffer ∧
      a.emergency_counter = b.emergency_counter then
    Decidable.isTrue (by cases a; cases b; simp only at h; simp [h.1, h.2])
  else
    Decidable.isFalse (by intro e; cases e; simp at h)

/-- Modelled from the spec: `class_init` of the missing module — atomically
test-and-set the process-wide `initialized` flag; return `0` on the
false→true transition and `-1` if already initialized. -/
def EmergencyNode_class_init (initialized : Bool) : Int × Bool :=
  if initialized then (-1, initialized) else (0, true)

/-- Modelled from the spec: `init` of the missing module — overwrite the
buffer with zero, set the counter to zero, always return `0`.  The incoming
storage may hold arbitrary bytes. -/
def EmergencyNode_init (_node : EmergencyNode_t) : Int × EmergencyNode_t :=
  (0, { emergency_buffer := fun _ => 0, emergency_counter := 0 })

/-- Modelled from the spec: `destroy` of the missing module — zero the
buffer and the counter, tear down the lock, always return `0`. -/
def EmergencyNode_destroy (_node : EmergencyNode_t) : Int × EmergencyNode_t :=
  (0, { emergency_buffer := fun _ => 0, emergency_counter := 0 })

/-- Modelled from the spec: the `was_set = (buffer[id>>3] >> (id&7)) & 1`
probe shared by `raise` and `solve`. -/
def bitGet (b k : Nat) : Nat := (b >>> k) &&& 1

/-- Modelled from the spec: `raise` of the missing module.  If `id ≥ C`
return `-1` with no state change; otherwise set bit `id & 7` of byte
`id >> 3` and increment the counter exactly when the bit was clear; return
`0`. -/
def EmergencyNode_raise (node : EmergencyNode_t) (id : Nat) :
    Int × EmergencyNode_t :=
  if h : id < NUM_EMERGENCIES then
    let byteIdx : Fin NUM_EMERGENCY_BUFFER :=
      ⟨id >>> 3, by
        simp only [Nat.shiftRight_eq_div_pow, NUM_EMERGENCIES,
          NUM_EMERGENCY_BUFFER] at h ⊢
        omega⟩
    let bitPos := id &&& 7
    let wasSet := bitGet (node.emergency_buffer byteIdx) bitPos
    let newByte := node.emergency_buffer byteIdx ||| (1 <<< bitPos)
    (0, { emergency_buffer := Function.update node.emergency_buffer byteIdx newByte,
          emergency_counter :=
            if wasSet = 0 then node.emergency_counter + 1
            else node.emergency_counter })
  else (-1, node)

/-- Modelled from the spec: `solve` of the missing module.  If `id ≥ C`
return `-1` with no state change; otherwise clear bit `id & 7` of byte
`id >> 3` (`&= ~(1 << k)` on a `uint8_t`, i.e. `&&& (0xFF ^^^ (1 <<< k))`)
and decrement the counter exactly when the bit was set; return `0`. -/
def EmergencyNode_solve (node : EmergencyNode_t) (id : Nat) :
    Int × EmergencyNode_t :=
  if h : id < NUM_EMERGENCIES then
    let byteIdx : Fin NUM_EMERGENCY_BUFFER :=
      ⟨id >>> 3, by
        simp only [Nat.shiftRight_eq_div_pow, NUM_EMERGENCIES,
          NUM_EMERGENCY_BUFFER] at h ⊢
        omega⟩
    let bitPos := id &&& 7
    let wasSet := bitGet (node.emergency_buffer byteIdx) bitPos
    let newByte := node.emergency_buffer byteIdx &&& (255 ^^^ (1 <<< bitPos))
    (0, { emergency_buffer := Function.update node.emergency_buffer byteIdx newByte,
          emergency_counter :=
            if wasSet = 1 then node.emergency_counter - 1
            else node.emergency_counter })
  else (-1, node)

/-- Modelled from the spec: `is_emergency_state` of the missing module —
read the counter and return it unchanged (the reference behaviour noted in
the spec: the raw counter, non-zero exactly when an emergency is active);
no state change. -/
def EmergencyNode_is_emergency_state (node : EmergencyNode_t) :
    Int × EmergencyNode_t :=
  ((node.emergency_counter : Int), node)

/-- The Node state produced by `init`, the reference point for readiness. -/
def initNode : EmergencyNode_t :=
  { emergency_buffer := fun _ => 0, emergency_counter := 0 }

/-- Number of set bits among the 8 flag bits of one buffer byte. -/
def popcount8 (b : Nat) : Nat :=
  ((List.range 8).filter (fun k => b.testBit k)).length

/-- Population count of the whole buffer: set bits summed over all bytes. -/
def popcount (buf : Fin NUM_EMERGENCY_BUFFER → Nat) : Nat :=
  ∑ i : Fin NUM_EMERGENCY_BUFFER, popcount8 (buf i)

/-- Readiness invariant of a Node: each buffer byte is a `uint8_t` value and
the counter equals the population count of the buffer (spec invariants I1
and the byte-width of the storage). -/
def NodeInv (node : EmergencyNode_t) : Prop :=
  (∀ i, node.emergency_buffer i < 256) ∧
  node.emergency_counter = popcount node.emergency_buffer

instance (node : EmergencyNode_t) : Decidable (NodeInv node) := by
  unfold NodeInv; infer_instance

/-- A legal operation on a ready Node: `raise` or `solve` with its ID. -/
inductive EOp where
  | raiseOp (id : Nat)
  | solveOp (id : Nat)
deriving DecidableEq

/-- The emergency ID carried by an operation. -/
def EOp.opId : EOp → Nat
  | .raiseOp id => id
  | .solveOp id => id

/-- Apply one operation to a Node, discarding the status code. -/
def applyOp (node : EmergencyNode_t) : EOp → EmergencyNode_t
  | .raiseOp id => (EmergencyNode_raise node id).2
  | .solveOp id => (EmergencyNode_solve node id).2

/-- Run a finite sequence of operations on a Node. -/
def runOps (node : EmergencyNode_t) (ops : List EOp) : EmergencyNode_t :=
  ops.foldl applyOp node

/-- Bit `n` of a Node, at byte `n >> 3`, bit position `n & 7` (the spec's
bit addressing). -/
def bitOf (node : EmergencyNode_t) (n : Fin NUM_EMERGENCIES) : Bool :=
  (node.emergency_buffer ⟨n.val >>> 3, by
    have h := n.isLt
    simp only [Nat.shiftRight_eq_div_pow, NUM_EMERGENCIES,
      NUM_EMERGENCY_BUFFER] at h ⊢
    omega⟩).testBit (n.val &&& 7)

/-- Buffer index from a C array subscript literal (total via `%`; all uses
are in range). -/
def bIdx (i : Nat) : Fin NUM_EMERGENCY_BUFFER :=
  ⟨i % NUM_EMERGENCY_BUFFER, Nat.mod_lt _ (by decide)⟩

/-! ## The test harness, embedded from `emergency_tests.c`

`TEST_ASSERT(cond, msg)` increments `tests_failed` and returns from the
enclosing test function when `cond` is false; `TEST_PASS` increments
`tests_passed`.  Each test function below mirrors its C source: a cascade
of early-exit checks.  A C `for` loop whose body is a single `TEST_ASSERT`
is embedded as one check of the conjunction, since the first failing
iteration returns and later iterations change nothing.  The three
multithreaded tests assert only on the post-join counter value, which
depends on the interleaving; they take that value as a parameter. -/

structure TestStats where
  tests_passed : Nat
  tests_failed : Nat
deriving DecidableEq

/-- The effect of a failing `TEST_ASSERT` on the statistics. -/
def failT (st : TestStats) : TestStats :=
  { st with tests_failed := st.tests_failed + 1 }

/-- The effect of `TEST_PASS` on the statistics. -/
def passT (st : TestStats) : TestStats :=
  { st with tests_passed := st.tests_passed + 1 }

/-- A Node whose storage was filled with `0xFF` bytes
(`memset(&node, 0xFF, sizeof(node))`). -/
def garbageNode : EmergencyNode_t :=
  { emergency_buffer := fun _ => 255, emergency_counter := 255 }

/-- `test_class_init_right`: first `class_init` succeeds, second fails. -/
def test_class_init_right (g : Bool) (st : TestStats) : Bool × TestStats :=
  let r1 := EmergencyNode_class_init g
  if ¬ (r1.1 = 0) then (r1.2, failT st)
  else
    let r2 := EmergencyNode_class_init r1.2
    if ¬ (r2.1 = -1) then (r2.2, failT st)
    else (r2.2, passT st)

/-- `test_node_init_right`: `init` on garbage storage returns 0 and zeroes
counter and buffer. -/
def test_node_init_right (st : TestStats) : TestStats :=
  let r := EmergencyNode_init garbageNode
  if ¬ (r.1 = 0) then failT st
  else if ¬ (r.2.emergency_counter = 0) then failT st
  else if ¬ (∀ i, r.2.emergency_buffer i = 0) then failT st
  else passT st

/-- `test_raise_emergency_right`: raise 5 (bit set, counter 1), raise 5
again (counter still 1), raise 10 (counter 2). -/
def test_raise_emergency_right (st : TestStats) : TestStats :=
  let node := (EmergencyNode_init initNode).2
  let r1 := EmergencyNode_raise node 5
  if ¬ (r1.1 = 0) then failT st
  else if ¬ (r1.2.emergency_counter = 1) then failT st
  else if ¬ (r1.2.emergency_buffer (bIdx 0) &&& (1 <<< 5) ≠ 0) then failT st
  else
    let r2 := EmergencyNode_raise r1.2 5
    if ¬ (r2.1 = 0) then failT st
    else if ¬ (r2.2.emergency_counter = 1) then failT st
    else
      let r3 := EmergencyNode_raise r2.2 10
      if ¬ (r3.1 = 0) then failT st
      else if ¬ (r3.2.emergency_counter = 2) then failT st
      else passT st

/-- `test_solve_emergency_right`: raise 5 and 10, then solve them. -/
def test_solve_emergency_right (st : TestStats) : TestStats :=
  let node := (EmergencyNode_init initNode).2
  let node := (EmergencyNode_raise node 5).2
  let node := (EmergencyNode_raise node 10).2
  if ¬ (node.emergency_counter = 2) then failT st
  else
    let r1 := EmergencyNode_solve node 5
    if ¬ (r1.1 = 0) then failT st
    else if ¬ (r1.2.emergency_counter = 1) then failT st
    else if ¬ (r1.2.emergency_buffer (bIdx 0) &&& (1 <<< 5) = 0) then failT st
    else
      let r2 := EmergencyNode_solve r1.2 10
      if ¬ (r2.1 = 0) then failT st
      else if ¬ (r2.2.emergency_counter = 0) then failT st
      else passT st

/-- `test_raise_solve_inverse`: raise 0..19, counter 20, solve 0..19,
counter 0. -/
def test_raise_solve_inverse (st : TestStats) : TestStats :=
  let node := (EmergencyNode_init initNode).2
  let node := (List.range 20).foldl (fun n i => (EmergencyNode_raise n i).2) node
  if ¬ (node.emergency_counter = 20) then failT st
  else
    let node2 := (List.range 20).foldl (fun n i => (EmergencyNode_solve n i).2) node
    if ¬ (node2.emergency_counter = 0) then failT st
    else passT st

/-- `test_emergency_state_cross_check`: counter 0 after init, raise 7,
state non-zero, counter 1, solve 7, counter 0. -/
def test_emergency_state_cross_check (st : TestStats) : TestStats :=
  let node := (EmergencyNode_init initNode).2
  if ¬ (node.emergency_counter = 0) then failT st
  else
    let node := (EmergencyNode_raise node 7).2
    let s := EmergencyNode_is_emergency_state node
    if ¬ (s.1 ≠ 0) then failT st
    else if ¬ (s.2.emergency_counter = 1) then failT st
    else
      let node2 := (EmergencyNode_solve s.2 7).2
      if ¬ (node2.emergency_counter = 0) then failT st
      else passT st

/-- `test_boundary_conditions_error`: raise 63 succeeds, raise 64 and
solve 64 fail. -/
def test_boundary_conditions_error (st : TestStats) : TestStats :=
  let node := (EmergencyNode_init initNode).2
  let r1 := EmergencyNode_raise node 63
  if ¬ (r1.1 = 0) then failT st
  else
    let r2 := EmergencyNode_raise r1.2 64
    if ¬ (r2.1 = -1) then failT st
    else
      let r3 := EmergencyNode_solve r2.2 64
      if ¬ (r3.1 = -1) then failT st
      else passT st

/-- `test_solve_nonexistent_error`: solving a never-raised emergency
returns 0 and leaves the counter at 0. -/
def test_solve_nonexistent_error (st : TestStats) : TestStats :=
  let node := (EmergencyNode_init initNode).2
  let r := EmergencyNode_solve node 5
  if ¬ (r.1 = 0) then failT st
  else if ¬ (r.2.emergency_counter = 0) then failT st
  else passT st

/-- `test_destroy_with_active_emergencies`: destroy clears an active
Node. -/
def test_destroy_with_active_emergencies (st : TestStats) : TestStats :=
  let node := (EmergencyNode_init initNode).2
  let node := (EmergencyNode_raise node 5).2
  let node := (EmergencyNode_raise node 10).2
  if ¬ (node.emergency_counter = 2) then failT st
  else
    let r := EmergencyNode_destroy node
    if ¬ (r.1 = 0) then failT st
    else if ¬ (r.2.emergency_counter = 0) then failT st
    else passT st

/-- `test_performance_many_operations`: 10000 raises of `i % 64`, then
10000 solves, counter back to 0. -/
def test_performance_many_operations (st : TestStats) : TestStats :=
  let node := (EmergencyNode_init initNode).2
  let node := (List.range 10000).foldl
    (fun n i => (EmergencyNode_raise n (i % 64)).2) node
  let node := (List.range 10000).foldl
    (fun n i => (EmergencyNode_solve n (i % 64)).2) node
  if ¬ (node.emergency_counter = 0) then failT st
  else passT st

/-- `test_multithreaded_raise`, post-join counter abstracted as `c`. -/
def test_multithreaded_raise (c : Nat) (st : TestStats) : TestStats :=
  if ¬ (c > 0) then failT st
  else if ¬ (c ≤ 64) then failT st
  else passT st

/-- `test_multithreaded_raise_and_solve`, post-join counter `c`. -/
def test_multithreaded_raise_and_solve (c : Nat) (st : TestStats) : TestStats :=
  if ¬ (c ≤ 64) then failT st
  else passT st

/-- `test_multithreaded_stress`, post-join counter `c`. -/
def test_multithreaded_stress (c : Nat) (st : TestStats) : TestStats :=
  if ¬ (c ≤ 64) then failT st
  else passT st

/-- `test_all_emergencies_simultaneously`: raise all 64 IDs (counter 64,
buffer all `0xFF`), solve all (counter 0). -/
def test_all_emergencies_simultaneously (st : TestStats) : TestStats :=
  let node := (EmergencyNode_init initNode).2
  let node := (List.range 64).foldl (fun n i => (EmergencyNode_raise n i).2) node
  if ¬ (node.emergency_counter = 64) then failT st
  else if ¬ (∀ i, node.emergency_buffer i = 255) then failT st
  else
    let node2 := (List.range 64).foldl (fun n i => (EmergencyNode_solve n i).2) node
    if ¬ (node2.emergency_counter = 0) then failT st
    else passT st

/-- The byte-boundary ID list of `test_byte_boundary_emergencies`. -/
def boundaries : List Nat :=
  [7, 8, 15, 16, 23, 24, 31, 32, 39, 40, 47, 48, 55, 56, 63]

/-- `test_byte_boundary_emergencies`: raise then solve every boundary ID. -/
def test_byte_boundary_emergencies (st : TestStats) : TestStats :=
  let node := (EmergencyNode_init initNode).2
  let node := boundaries.foldl (fun n i => (EmergencyNode_raise n i).2) node
  if ¬ (node.emergency_counter = boundaries.length) then failT st
  else
    let node2 := boundaries.foldl (fun n i => (EmergencyNode_solve n i).2) node
    if ¬ (node2.emergency_counter = 0) then failT st
    else passT st

/-- `main` of `emergency_tests.c`: run the fifteen test functions in
source order, starting from zero statistics and an uninitialized class
flag; `c1`, `c2`, `c3` are the post-join counters of the three
multithreaded tests. -/
def main_run (c1 c2 c3 : Nat) : TestStats :=
  let st0 : TestStats := { tests_passed := 0, tests_failed := 0 }
  let st1 := (test_class_init_right false st0).2
  let st2 := test_node_init_right st1
  let st3 := test_raise_emergency_right st2
  let st4 := test_solve_emergency_right st3
  let st5 := test_raise_solve_inverse st4
  let st6 := test_emergency_state_cross_check st5
  let st7 := test_boundary_conditions_error st6
  let st8 := test_solve_nonexistent_error st7
  let st9 := test_destroy_with_active_emergencies st8
  let st10 := test_performance_many_operations st9
  let st11 := test_multithreaded_raise c1 st10
  let st12 := test_multithreaded_raise_and_solve c2 st11
  let st13 := test_multithreaded_stress c3 st12
  let st14 := test_all_emergencies_simultaneously st13
  let st15 := test_byte_boundary_emergencies st14
  st15

/-- The exit status computed by `main`:
`return tests_failed > 0 ? 1 : 0;`. -/
def main_exit_status (c1 c2 c3 : Nat) : Int :=
  if (main_run c1 c2 c3).tests_failed > 0 then 1 else 0

/-- One test-function invocation moves the statistics by exactly one unit:
either one more pass, or one more failure. -/
def IncrementsOne (st st' : TestStats) : Prop :=
  (st'.tests_passed = st.tests_passed + 1 ∧
    st'.tests_failed = st.tests_failed) ∨
  (st'.tests_passed = st.tests_passed ∧
    st'.tests_failed = st.tests_failed + 1)

/-- Results and final flag of `n` successive `class_init` calls starting
from class flag `g`. -/
def class_init_run : Nat → Bool → List Int × Bool
  | 0, g => ([], g)
  | n + 1, g =>
    let r := EmergencyNode_class_init g
    let rest := class_init_run n r.2
    (r.1 :: rest.1, rest.2)

/-- The fifteen test-function invocations of `main`, in source order
(`c1`, `c2`, `c3` are the multithreaded post-join counters). -/
def mainTests (c1 c2 c3 : Nat) : List (TestStats → TestStats) :=
  [fun st => (test_class_init_right false st).2,
    test_node_init_right,
    test_raise_emergency_right,
    test_solve_emergency_right,
    test_raise_solve_inverse,
    test_emergency_state_cross_check,
    test_boundary_conditions_error,
    test_solve_nonexistent_error,
    test_destroy_with_active_emergencies,
    test_performance_many_operations,
    test_multithreaded_raise c1,
    test_multithreaded_raise_and_solve c2,
    test_multithreaded_stress c3,
    test_all_emergencies_simultaneously,
    test_byte_boundary_emergencies]

/-! ## Arithmetic and byte-level helper lemmas -/

set_option maxRecDepth 8000

theorem shr3_lt {id : Nat} (h : id < NUM_EMERGENCIES) :
    id >>> 3 < NUM_EMERGENCY_BUFFER := by
  rw [Nat.shiftRight_eq_div_pow]
  have h2 : id < 64 := h
  show id / 2 ^ 3 < 8
  omega

theorem and7_lt (id : Nat) : id &&& 7 < 8 :=
  Nat.lt_of_le_of_lt Nat.and_le_right (by omega)

theorem shr3_eq (n : Nat) : n >>> 3 = n / 8 := by
  rw [Nat.shiftRight_eq_div_pow]

theorem and7_eq (n : Nat) : n &&& 7 = n % 8 := by
  have h := Nat.and_pow_two_sub_one_eq_mod n 3
  norm_num at h
  exact h

theorem bitGet_eq (b k : Nat) : bitGet b k = if b.testBit k then 1 else 0 := by
  unfold bitGet
  rw [Nat.and_one_is_mod, Nat.shiftRight_eq_div_pow, Nat.testBit_to_div_mod]
  rcases Nat.mod_two_eq_zero_or_one (b / 2 ^ k) with h | h <;> simp [h]

theorem popcount8_set : ∀ b < 256, ∀ k < 8,
    popcount8 (b ||| (1 <<< k)) =
      if b.testBit k then popcount8 b else popcount8 b + 1 := by decide

theorem popcount8_clear : ∀ b < 256, ∀ k < 8,
    (b.testBit k = true →
      popcount8 (b &&& (255 ^^^ (1 <<< k))) + 1 = popcount8 b) ∧
    (b.testBit k = false → b &&& (255 ^^^ (1 <<< k)) = b) := by decide

theorem byte_or_lt : ∀ b < 256, ∀ k < 8, b ||| (1 <<< k) < 256 := by decide

theorem mask_lt : ∀ k < 8, 255 ^^^ (1 <<< k) < 256 := by decide

theorem byte_and_lt (b : Nat) {k : Nat} (hk : k < 8) :
    b &&& (255 ^^^ (1 <<< k)) < 256 :=
  Nat.lt_of_le_of_lt Nat.and_le_right (mask_lt k hk)

theorem byte_zero_of_bits : ∀ b < 256,
    (∀ k < 8, b.testBit k = false) → b = 0 := by decide

theorem or_testBit (b k j : Nat) :
    (b ||| (1 <<< k)).testBit j = (b.testBit j || decide (k = j)) := by
  rw [Nat.one_shiftLeft, Nat.testBit_or, Nat.testBit_two_pow]

theorem mask_testBit : ∀ k < 8, ∀ j < 8,
    (255 ^^^ (1 <<< k)).testBit j = !decide (k = j) := by decide

theorem and_mask_testBit (b : Nat) {k j : Nat} (hk : k < 8) (hj : j < 8) :
    (b &&& (255 ^^^ (1 <<< k))).testBit j = (b.testBit j && !decide (k = j)) := by
  rw [Nat.testBit_and, mask_testBit k hk j hj]

theorem popcount_update (buf : Fin NUM_EMERGENCY_BUFFER → Nat)
    (i : Fin NUM_EMERGENCY_BUFFER) (b : Nat) :
    popcount (Function.update buf i b) + popcount8 (buf i) =
      popcount buf + popcount8 b := by
  unfold popcount
  have hfun : (fun j => popcount8 (Function.update buf i b j)) =
      Function.update (fun j => popcount8 (buf j)) i (popcount8 b) := by
    funext j
    by_cases hj : j = i
    · subst hj; rw [Function.update_same, Function.update_same]
    · rw [Function.update_noteq hj, Function.update_noteq hj]
  calc (∑ j : Fin NUM_EMERGENCY_BUFFER, popcount8 (Function.update buf i b j))
        + popcount8 (buf i)
      = (∑ j : Fin NUM_EMERGENCY_BUFFER,
          Function.update (fun j => popcount8 (buf j)) i (popcount8 b) j)
        + popcount8 (buf i) := by rw [hfun]
    _ = (popcount8 b + ∑ j in Finset.univ \ {i}, popcount8 (buf j))
        + popcount8 (buf i) := by
          rw [Finset.sum_update_of_mem (Finset.mem_univ i)]
    _ = (∑ j : Fin NUM_EMERGENCY_BUFFER, popcount8 (buf j)) + popcount8 b := by
          rw [Finset.sum_eq_sum_diff_singleton_add (Finset.mem_univ i)
            (fun j => popcount8 (buf j))]
          omega

/-! ## Characterization of `raise` and `solve` on in-range IDs -/

theorem raise_fst (node : EmergencyNode_t) {id : Nat}
    (h : id < NUM_EMERGENCIES) : (EmergencyNode_raise node id).1 = 0 := by
  unfold EmergencyNode_raise
  rw [dif_pos h]

theorem raise_buffer (node : EmergencyNode_t) {id : Nat}
    (h : id < NUM_EMERGENCIES) (i : Fin NUM_EMERGENCY_BUFFER) :
    (EmergencyNode_raise node id).2.emergency_buffer i =
      if i = (⟨id >>> 3, shr3_lt h⟩ : Fin NUM_EMERGENCY_BUFFER) then
        node.emergency_buffer i ||| (1 <<< (id &&& 7))
      else node.emergency_buffer i := by
  unfold EmergencyNode_raise
  rw [dif_pos h]
  simp only [Function.update_apply]
  by_cases hi : i = (⟨id >>> 3, shr3_lt h⟩ : Fin NUM_EMERGENCY_BUFFER)
  · rw [if_pos hi, if_pos hi, hi]
  · rw [if_neg hi, if_neg hi]

theorem raise_counter (node : EmergencyNode_t) {id : Nat}
    (h : id < NUM_EMERGENCIES) :
    (EmergencyNode_raise node id).2.emergency_counter =
      if (node.emergency_buffer
          (⟨id >>> 3, shr3_lt h⟩ : Fin NUM_EMERGENCY_BUFFER)).testBit (id &&& 7)
      then node.emergency_counter
      else node.emergency_counter + 1 := by
  unfold EmergencyNode_raise
  rw [dif_pos h]
  simp only [bitGet_eq]
  by_cases hb : (node.emergency_buffer
      (⟨id >>> 3, shr3_lt h⟩ : Fin NUM_EMERGENCY_BUFFER)).testBit (id &&& 7)
  · rw [if_pos hb]
    simp [hb]
  · rw [if_neg hb]
    simp [hb]

theorem solve_fst (node : EmergencyNode_t) {id : Nat}
    (h : id < NUM_EMERGENCIES) : (EmergencyNode_solve node id).1 = 0 := by
  unfold EmergencyNode_solve
  rw [dif_pos h]

theorem solve_buffer (node : EmergencyNode_t) {id : Nat}
    (h : id < NUM_EMERGENCIES) (i : Fin NUM_EMERGENCY_BUFFER) :
    (EmergencyNode_solve node id).2.emergency_buffer i =
      if i = (⟨id >>> 3, shr3_lt h⟩ : Fin NUM_EMERGENCY_BUFFER) then
        node.emergency_buffer i &&& (255 ^^^ (1 <<< (id &&& 7)))
      else node.emergency_buffer i := by
  unfold EmergencyNode_solve
  rw [dif_pos h]
  simp only [Function.update_apply]
  by_cases hi : i = (⟨id >>> 3, shr3_lt h⟩ : Fin NUM_EMERGENCY_BUFFER)
  · rw [if_pos hi, if_pos hi, hi]
  · rw [if_neg hi, if_neg hi]

theorem solve_counter (node : EmergencyNode_t) {id : Nat}
    (h : id < NUM_EMERGENCIES) :
    (EmergencyNode_solve node id).2.emergency_counter =
      if (node.emergency_buffer
          (⟨id >>> 3, shr3_lt h⟩ : Fin NUM_EMERGENCY_BUFFER)).testBit (id &&& 7)
      then node.emergency_counter - 1
      else node.emergency_counter := by
  unfold EmergencyNode_solve
  rw [dif_pos h]
  simp only [bitGet_eq]
  by_cases hb : (node.emergency_buffer
      (⟨id >>> 3, shr3_lt h⟩ : Fin NUM_EMERGENCY_BUFFER)).testBit (id &&& 7)
  · rw [if_pos hb]
    simp [hb]
  · rw [if_neg hb]
    simp [hb]

theorem raise_oob (node : EmergencyNode_t) {id : Nat}
    (h : ¬ id < NUM_EMERGENCIES) : EmergencyNode_raise node id = (-1, node) := by
  unfold EmergencyNode_raise
  rw [dif_neg h]

theorem solve_oob (node : EmergencyNode_t) {id : Nat}
    (h : ¬ id < NUM_EMERGENCIES) : EmergencyNode_solve node id = (-1, node) := by
  unfold EmergencyNode_solve
  rw [dif_neg h]

theorem raise_buffer_fun (node : EmergencyNode_t) {id : Nat}
    (h : id < NUM_EMERGENCIES) :
    (EmergencyNode_raise node id).2.emergency_buffer =
      Function.update node.emergency_buffer
        (⟨id >>> 3, shr3_lt h⟩ : Fin NUM_EMERGENCY_BUFFER)
        (node.emergency_buffer (⟨id >>> 3, shr3_lt h⟩ : Fin NUM_EMERGENCY_BUFFER)
          ||| (1 <<< (id &&& 7))) := by
  unfold EmergencyNode_raise
  rw [dif_pos h]

theorem solve_buffer_fun (node : EmergencyNode_t) {id : Nat}
    (h : id < NUM_EMERGENCIES) :
    (EmergencyNode_solve node id).2.emergency_buffer =
      Function.update node.emergency_buffer
        (⟨id >>> 3, shr3_lt h⟩ : Fin NUM_EMERGENCY_BUFFER)
        (node.emergency_buffer (⟨id >>> 3, shr3_lt h⟩ : Fin NUM_EMERGENCY_BUFFER)
          &&& (255 ^^^ (1 <<< (id &&& 7)))) := by
  unfold EmergencyNode_solve
  rw [dif_pos h]

/-! ## Preservation of the readiness invariant -/

theorem raise_inv {node : EmergencyNode_t} (hinv : NodeInv node) (id : Nat) :
    NodeInv (EmergencyNode_raise node id).2 := by
  by_cases h : id < NUM_EMERGENCIES
  · obtain ⟨hb, hc⟩ := hinv
    have hk : id &&& 7 < 8 := and7_lt id
    have hblt : node.emergency_buffer
        (⟨id >>> 3, shr3_lt h⟩ : Fin NUM_EMERGENCY_BUFFER) < 256 := hb _
    constructor
    · intro j
      rw [raise_buffer node h j]
      by_cases hj : j = (⟨id >>> 3, shr3_lt h⟩ : Fin NUM_EMERGENCY_BUFFER)
      · rw [if_pos hj, hj]
        exact byte_or_lt _ hblt _ hk
      · rw [if_neg hj]
        exact hb j
    · rw [raise_counter node h, raise_buffer_fun node h]
      have hpu := popcount_update node.emergency_buffer
        (⟨id >>> 3, shr3_lt h⟩ : Fin NUM_EMERGENCY_BUFFER)
        (node.emergency_buffer (⟨id >>> 3, shr3_lt h⟩ : Fin NUM_EMERGENCY_BUFFER)
          ||| (1 <<< (id &&& 7)))
      have hps := popcount8_set _ hblt _ hk
      by_cases hbit : (node.emergency_buffer
          (⟨id >>> 3, shr3_lt h⟩ : Fin NUM_EMERGENCY_BUFFER)).testBit (id &&& 7)
      · rw [if_pos hbit]
        rw [if_pos hbit] at hps
        omega
      · rw [if_neg hbit]
        rw [if_neg hbit] at hps
        omega
  · rw [raise_oob node h]
    exact hinv

theorem solve_inv {node : EmergencyNode_t} (hinv : NodeInv node) (id : Nat) :
    NodeInv (EmergencyNode_solve node id).2 := by
  by_cases h : id < NUM_EMERGENCIES
  · obtain ⟨hb, hc⟩ := hinv
    have hk : id &&& 7 < 8 := and7_lt id
    have hblt : node.emergency_buffer
        (⟨id >>> 3, shr3_lt h⟩ : Fin NUM_EMERGENCY_BUFFER) < 256 := hb _
    constructor
    · intro j
      rw [solve_buffer node h j]
      by_cases hj : j = (⟨id >>> 3, shr3_lt h⟩ : Fin NUM_EMERGENCY_BUFFER)
      · rw [if_pos hj]
        exact byte_and_lt _ hk
      · rw [if_neg hj]
        exact hb j
    · rw [solve_counter node h, solve_buffer_fun node h]
      have hpu := popcount_update node.emergency_buffer
        (⟨id >>> 3, shr3_lt h⟩ : Fin NUM_EMERGENCY_BUFFER)
        (node.emergency_buffer (⟨id >>> 3, shr3_lt h⟩ : Fin NUM_EMERGENCY_BUFFER)
          &&& (255 ^^^ (1 <<< (id &&& 7))))
      have hpc := popcount8_clear _ hblt _ hk
      by_cases hbit : (node.emergency_buffer
          (⟨id >>> 3, shr3_lt h⟩ : Fin NUM_EMERGENCY_BUFFER)).testBit (id &&& 7)
      · rw [if_pos hbit]
        have hps := hpc.1 hbit
        omega
      · rw [if_neg hbit]
        have hps := hpc.2 (by simp [hbit])
        rw [hps] at hpu ⊢
        omega
  · rw [solve_oob node h]
    exact hinv

theorem applyOp_inv {node : EmergencyNode_t} (hinv : NodeInv node) (op : EOp) :
    NodeInv (applyOp node op) := by
  cases op with
  | raiseOp id => exact raise_inv hinv id
  | solveOp id => exact solve_inv hinv id

theorem runOps_inv {node : EmergencyNode_t} (hinv : NodeInv node)
    (ops : List EOp) : NodeInv (runOps node ops) := by
  induction ops generalizing node with
  | nil => exact hinv
  | cons a t ih => exact ih (applyOp_inv hinv a)

theorem initNode_inv : NodeInv initNode := by decide

/-- C1: after any finite sequence of legal raise/solve operations on a
Node freshly set up by `init`, the maintained counter equals the population
count of the buffer; moreover raising every ID in `[0, 64)` yields counter
64 with every buffer byte `0xFF`, and then solving every ID yields counter
0 with every byte `0x00`. -/
theorem C1_counter_is_popcount :
    (∀ ops : List EOp, (∀ op ∈ ops, op.opId < NUM_EMERGENCIES) →
      (runOps initNode ops).emergency_counter =
        popcount (runOps initNode ops).emergency_buffer) ∧
    (runOps initNode ((List.range 64).map EOp.raiseOp)).emergency_counter = 64 ∧
    (∀ i, (runOps initNode
      ((List.range 64).map EOp.raiseOp)).emergency_buffer i = 255) ∧
    (runOps initNode ((List.range 64).map EOp.raiseOp ++
      (List.range 64).map EOp.solveOp)).emergency_counter = 0 ∧
    (∀ i, (runOps initNode ((List.range 64).map EOp.raiseOp ++
      (List.range 64).map EOp.solveOp)).emergency_buffer i = 0) := by
  refine ⟨fun ops _ => (runOps_inv initNode_inv ops).2, ?_, ?_, ?_, ?_⟩ <;> decide

/-- Witness for C1 at the concrete operation sequence raise 5, solve 3. -/
theorem C1_counter_is_popcount_witness :
    (runOps initNode [EOp.raiseOp 5, EOp.solveOp 3]).emergency_counter =
      popcount (runOps initNode [EOp.raiseOp 5, EOp.solveOp 3]).emergency_buffer :=
  C1_counter_is_popcount.1 [EOp.raiseOp 5, EOp.solveOp 3] (by decide)

/-- C2: raising the same in-range ID twice returns 0 both times and leaves
exactly the state of a single raise — the counter counts distinct active
emergencies, not calls. -/
theorem C2_raise_idempotent (node : EmergencyNode_t) (id : Nat)
    (h : id < NUM_EMERGENCIES) :
    (EmergencyNode_raise node id).1 = 0 ∧
    (EmergencyNode_raise (EmergencyNode_raise node id).2 id).1 = 0 ∧
    (EmergencyNode_raise (EmergencyNode_raise node id).2 id).2 =
      (EmergencyNode_raise node id).2 := by
  have hb1 : (EmergencyNode_raise node id).2.emergency_buffer
      (⟨id >>> 3, shr3_lt h⟩ : Fin NUM_EMERGENCY_BUFFER) =
      node.emergency_buffer (⟨id >>> 3, shr3_lt h⟩ : Fin NUM_EMERGENCY_BUFFER)
        ||| (1 <<< (id &&& 7)) := by
    rw [raise_buffer node h, if_pos rfl]
  refine ⟨raise_fst node h, raise_fst _ h, ?_⟩
  apply EmergencyNode_t.ext
  · rw [raise_buffer_fun _ h, hb1, Nat.or_assoc, Nat.or_self, ← hb1,
      Function.update_eq_self]
  · rw [raise_counter _ h, hb1, or_testBit]
    simp

/-- Witness for C2: double raise of ID 5 on a fresh Node. -/
theorem C2_raise_idempotent_witness :
    (EmergencyNode_raise initNode 5).1 = 0 ∧
    (EmergencyNode_raise (EmergencyNode_raise initNode 5).2 5).1 = 0 ∧
    (EmergencyNode_raise (EmergencyNode_raise initNode 5).2 5).2 =
      (EmergencyNode_raise initNode 5).2 :=
  C2_raise_idempotent initNode 5 (by decide)

/-- C3: an ID that is at least the capacity (and fits a byte) makes both
`raise` and `solve` return -1 with the Node untouched, while the largest
valid ID 63 is accepted by `raise` with return value 0. -/
theorem C3_out_of_range_rejected (node : EmergencyNode_t) (id : Nat)
    (h1 : NUM_EMERGENCIES ≤ id) (h2 : id ≤ 255) :
    EmergencyNode_raise node id = (-1, node) ∧
    EmergencyNode_solve node id = (-1, node) ∧
    (EmergencyNode_raise node (NUM_EMERGENCIES - 1)).1 = 0 :=
  ⟨raise_oob node (Nat.not_lt.mpr h1), solve_oob node (Nat.not_lt.mpr h1),
    raise_fst node (by decide)⟩

/-- Witness for C3 at ID 64 on a fresh Node. -/
theorem C3_out_of_range_rejected_witness :
    EmergencyNode_raise initNode 64 = (-1, initNode) ∧
    EmergencyNode_solve initNode 64 = (-1, initNode) ∧
    (EmergencyNode_raise initNode (NUM_EMERGENCIES - 1)).1 = 0 :=
  C3_out_of_range_rejected initNode 64 (by decide) (by decide)

theorem class_init_run_true (n : Nat) :
    class_init_run n true = (List.replicate n (-1), true) := by
  induction n with
  | zero => rfl
  | succ n ih =>
    simp [class_init_run, EmergencyNode_class_init, ih, List.replicate_succ]

/-- C4: in any sequence of `class_init` calls starting from the initial
(uninitialized) process state, the first call returns 0 and flips the flag
to true, and every one of the `n` subsequent calls returns -1 leaving the
flag true. -/
theorem C4_class_init_once (n : Nat) :
    class_init_run (n + 1) false = (0 :: List.replicate n (-1), true) := by
  simp [class_init_run, EmergencyNode_class_init, class_init_run_true n]

/-- C5: `is_emergency_state` returns a non-zero value exactly when the
counter is positive, zero exactly when it is zero, and leaves the Node
unchanged. -/
theorem C5_is_emergency_state_correct (node : EmergencyNode_t) :
    ((EmergencyNode_is_emergency_state node).1 ≠ 0 ↔
      0 < node.emergency_counter) ∧
    ((EmergencyNode_is_emergency_state node).1 = 0 ↔
      node.emergency_counter = 0) ∧
    (EmergencyNode_is_emergency_state node).2 = node := by
  refine ⟨?_, ?_, rfl⟩ <;> simp [EmergencyNode_is_emergency_state] <;> omega

/-- C8: `init` on a Node holding arbitrary bytes returns 0 and leaves every
buffer byte and the counter at zero. -/
theorem C8_init_zeroes (node : EmergencyNode_t) :
    (EmergencyNode_init node).1 = 0 ∧
    (∀ i, (EmergencyNode_init node).2.emergency_buffer i = 0) ∧
    (EmergencyNode_init node).2.emergency_counter = 0 :=
  ⟨rfl, fun _ => rfl, rfl⟩

/-- C9: `solve` of an in-range ID whose bit is clear returns 0 and is a
complete no-op on a ready Node (no counter underflow). -/
theorem C9_solve_absent_noop (node : EmergencyNode_t) (id : Nat)
    (hready : NodeInv node) (h : id < NUM_EMERGENCIES)
    (hclear : (node.emergency_buffer
      (⟨id >>> 3, shr3_lt h⟩ : Fin NUM_EMERGENCY_BUFFER)).testBit (id &&& 7)
      = false) :
    EmergencyNode_solve node id = (0, node) := by
  have hk := and7_lt id
  have hblt := hready.1 (⟨id >>> 3, shr3_lt h⟩ : Fin NUM_EMERGENCY_BUFFER)
  have hnoop := (popcount8_clear _ hblt _ hk).2 hclear
  rw [Prod.ext_iff]
  refine ⟨solve_fst node h, ?_⟩
  apply EmergencyNode_t.ext
  · rw [solve_buffer_fun node h, hnoop, Function.update_eq_self]
  · rw [solve_counter node h, if_neg (by simp [hclear])]

/-- Witness for C9: solving never-raised ID 5 on a fresh Node. -/
theorem C9_solve_absent_noop_witness :
    EmergencyNode_solve initNode 5 = (0, initNode) :=
  C9_solve_absent_noop initNode 5 (by decide) (by decide) (by decide)

theorem raise_testBit (node : EmergencyNode_t) (id : Nat)
    (h : id < NUM_EMERGENCIES) (i : Fin NUM_EMERGENCY_BUFFER) (j : Nat) :
    ((EmergencyNode_raise node id).2.emergency_buffer i).testBit j =
      (((node.emergency_buffer i).testBit j) ||
        decide (i.val = id >>> 3 ∧ j = id &&& 7)) := by
  rw [raise_buffer node h i]
  by_cases hi : i = (⟨id >>> 3, shr3_lt h⟩ : Fin NUM_EMERGENCY_BUFFER)
  · have hv : i.val = id >>> 3 := by rw [hi]
    rw [if_pos hi, or_testBit]
    simp [hv, eq_comm]
  · have hv : ¬ i.val = id >>> 3 := fun hc => hi (Fin.ext hc)
    rw [if_neg hi]
    simp [hv]

theorem solve_testBit (node : EmergencyNode_t) (id : Nat)
    (h : id < NUM_EMERGENCIES) (i : Fin NUM_EMERGENCY_BUFFER) {j : Nat}
    (hj : j < 8) :
    ((EmergencyNode_solve node id).2.emergency_buffer i).testBit j =
      (((node.emergency_buffer i).testBit j) &&
        !decide (i.val = id >>> 3 ∧ j = id &&& 7)) := by
  rw [solve_buffer node h i]
  by_cases hi : i = (⟨id >>> 3, shr3_lt h⟩ : Fin NUM_EMERGENCY_BUFFER)
  · have hv : i.val = id >>> 3 := by rw [hi]
    rw [if_pos hi, and_mask_testBit _ (and7_lt id) hj]
    simp [hv, eq_comm]
  · have hv : ¬ i.val = id >>> 3 := fun hc => hi (Fin.ext hc)
    rw [if_neg hi]
    simp [hv]

/-- C7: `raise(n)` sets exactly bit `n & 7` of buffer byte `n >> 3` and
`solve(n)` clears exactly that bit (all other bits of all bytes are
untouched); concretely, from a fresh Node, raise 5 gives counter 1 and
`buffer[0] = 0x20`, raise 10 additionally gives counter 2 and
`buffer[1] = 0x04`, solve 5 gives counter 1 and `buffer[0] = 0x00`,
solve 10 gives counter 0; and raising then solving the byte-boundary IDs
7, 8, ..., 63 moves the counter 0 → 15 → 0. -/
theorem C7_bit_addressing :
    (∀ (node : EmergencyNode_t) (id : Nat), id < NUM_EMERGENCIES →
      ∀ (i : Fin NUM_EMERGENCY_BUFFER) (j : Nat),
        ((EmergencyNode_raise node id).2.emergency_buffer i).testBit j =
          (((node.emergency_buffer i).testBit j) ||
            decide (i.val = id >>> 3 ∧ j = id &&& 7))) ∧
    (∀ (node : EmergencyNode_t) (id : Nat), id < NUM_EMERGENCIES →
      ∀ (i : Fin NUM_EMERGENCY_BUFFER), ∀ j < 8,
        ((EmergencyNode_solve node id).2.emergency_buffer i).testBit j =
          (((node.emergency_buffer i).testBit j) &&
            !decide (i.val = id >>> 3 ∧ j = id &&& 7))) ∧
    ((runOps initNode [EOp.raiseOp 5]).emergency_counter = 1 ∧
      (runOps initNode [EOp.raiseOp 5]).emergency_buffer (bIdx 0) = 32) ∧
    ((runOps initNode [EOp.raiseOp 5, EOp.raiseOp 10]).emergency_counter = 2 ∧
      (runOps initNode [EOp.raiseOp 5, EOp.raiseOp 10]).emergency_buffer
        (bIdx 1) = 4) ∧
    ((runOps initNode
        [EOp.raiseOp 5, EOp.raiseOp 10, EOp.solveOp 5]).emergency_counter = 1 ∧
      (runOps initNode
        [EOp.raiseOp 5, EOp.raiseOp 10, EOp.solveOp 5]).emergency_buffer
          (bIdx 0) = 0) ∧
    (runOps initNode [EOp.raiseOp 5, EOp.raiseOp 10, EOp.solveOp 5,
      EOp.solveOp 10]).emergency_counter = 0 ∧
    (runOps initNode (boundaries.map EOp.raiseOp)).emergency_counter = 15 ∧
    (runOps initNode (boundaries.map EOp.raiseOp ++
      boundaries.map EOp.solveOp)).emergency_counter = 0 := by
  refine ⟨fun node id h i j => raise_testBit node id h i j,
    fun node id h i j hj => solve_testBit node id h i hj, ?_, ?_, ?_, ?_, ?_, ?_⟩
    <;> decide

/-- Witness for C7: the raise clause at a fresh Node, ID 5, byte 0,
bit 5. -/
theorem C7_bit_addressing_witness :
    ((EmergencyNode_raise initNode 5).2.emergency_buffer (bIdx 0)).testBit 5 =
      (((initNode.emergency_buffer (bIdx 0)).testBit 5) ||
        decide ((bIdx 0).val = 5 >>> 3 ∧ 5 = 5 &&& 7)) :=
  C7_bit_addressing.1 initNode 5 (by decide) (bIdx 0) 5

theorem bitOf_raise (node : EmergencyNode_t) (id : Nat)
    (h : id < NUM_EMERGENCIES) (m : Fin NUM_EMERGENCIES) :
    bitOf (EmergencyNode_raise node id).2 m =
      (bitOf node m || decide (m.val = id)) := by
  unfold bitOf
  rw [raise_testBit node id h]
  have hiff : ((m.val >>> 3 : Nat) = id >>> 3 ∧ (m.val &&& 7) = id &&& 7) ↔
      m.val = id := by
    rw [shr3_eq, shr3_eq, and7_eq, and7_eq]
    have h1 : m.val < 64 := m.isLt
    have h2 : id < 64 := h
    omega
  simp [hiff]

theorem bitOf_solve (node : EmergencyNode_t) (id : Nat)
    (h : id < NUM_EMERGENCIES) (m : Fin NUM_EMERGENCIES) :
    bitOf (EmergencyNode_solve node id).2 m =
      (bitOf node m && !decide (m.val = id)) := by
  unfold bitOf
  rw [solve_testBit node id h _ (and7_lt m.val)]
  have hiff : ((m.val >>> 3 : Nat) = id >>> 3 ∧ (m.val &&& 7) = id &&& 7) ↔
      m.val = id := by
    rw [shr3_eq, shr3_eq, and7_eq, and7_eq]
    have h1 : m.val < 64 := m.isLt
    have h2 : id < 64 := h
    omega
  simp [hiff]

theorem bitOf_runRaises : ∀ (l : List Nat) (node : EmergencyNode_t)
    (m : Fin NUM_EMERGENCIES), (∀ x ∈ l, x < NUM_EMERGENCIES) →
    bitOf (runOps node (l.map EOp.raiseOp)) m =
      (bitOf node m || decide (m.val ∈ l)) := by
  intro l
  induction l with
  | nil => intro node m _; simp [runOps]
  | cons a t ih =>
    intro node m hl
    have ha : a < NUM_EMERGENCIES := hl a (by simp)
    have ht : ∀ x ∈ t, x < NUM_EMERGENCIES := fun x hx => hl x (by simp [hx])
    have hstep : runOps node ((a :: t).map EOp.raiseOp) =
        runOps (EmergencyNode_raise node a).2 (t.map EOp.raiseOp) := rfl
    rw [hstep, ih _ m ht, bitOf_raise node a ha m]
    simp [List.mem_cons, Bool.or_assoc]

theorem bitOf_runSolves : ∀ (l : List Nat) (node : EmergencyNode_t)
    (m : Fin NUM_EMERGENCIES), (∀ x ∈ l, x < NUM_EMERGENCIES) →
    bitOf (runOps node (l.map EOp.solveOp)) m =
      (bitOf node m && !decide (m.val ∈ l)) := by
  intro l
  induction l with
  | nil => intro node m _; simp [runOps]
  | cons a t ih =>
    intro node m hl
    have ha : a < NUM_EMERGENCIES := hl a (by simp)
    have ht : ∀ x ∈ t, x < NUM_EMERGENCIES := fun x hx => hl x (by simp [hx])
    have hstep : runOps node ((a :: t).map EOp.solveOp) =
        runOps (EmergencyNode_solve node a).2 (t.map EOp.solveOp) := rfl
    rw [hstep, ih _ m ht, bitOf_solve node a ha m]
    by_cases h1 : m.val = a <;> by_cases h2 : m.val ∈ t <;>
      simp [h1, h2]

theorem bitOf_initNode (m : Fin NUM_EMERGENCIES) : bitOf initNode m = false :=
  Nat.zero_testBit _

theorem testBit_as_bitOf (node : EmergencyNode_t)
    (i : Fin NUM_EMERGENCY_BUFFER) {k : Nat} (hk : k < 8) :
    (node.emergency_buffer i).testBit k =
      bitOf node ⟨8 * i.val + k, by
        have h8 : i.val < 8 := i.isLt
        show 8 * i.val + k < 64
        omega⟩ := by
  have h1 : (8 * i.val + k) >>> 3 = i.val := by
    rw [shr3_eq]; omega
  have h2 : (8 * i.val + k) &&& 7 = k := by
    rw [and7_eq]; omega
  have hfin : ∀ (p : (8 * i.val + k) >>> 3 < NUM_EMERGENCY_BUFFER),
      (⟨(8 * i.val + k) >>> 3, p⟩ : Fin NUM_EMERGENCY_BUFFER) = i :=
    fun p => Fin.ext h1
  unfold bitOf
  rw [h2, hfin]

/-- C6: raising every element of a duplicate-free list of in-range IDs and
then solving them in any permuted order returns the Node exactly to its
post-`init` state. -/
theorem C6_round_trip (l1 l2 : List Nat) (hnd : l1.Nodup)
    (hlt : ∀ x ∈ l1, x < NUM_EMERGENCIES) (hperm : l1.Perm l2) :
    runOps initNode (l1.map EOp.raiseOp ++ l2.map EOp.solveOp) = initNode := by
  have hlt2 : ∀ x ∈ l2, x < NUM_EMERGENCIES :=
    fun x hx => hlt x (hperm.mem_iff.mpr hx)
  have hsplit : runOps initNode (l1.map EOp.raiseOp ++ l2.map EOp.solveOp) =
      runOps (runOps initNode (l1.map EOp.raiseOp)) (l2.map EOp.solveOp) := by
    simp [runOps, List.foldl_append]
  have hbits : ∀ m : Fin NUM_EMERGENCIES,
      bitOf (runOps initNode (l1.map EOp.raiseOp ++ l2.map EOp.solveOp)) m
        = false := by
    intro m
    rw [hsplit, bitOf_runSolves l2 _ m hlt2, bitOf_runRaises l1 _ m hlt,
      bitOf_initNode m]
    by_cases hm : m.val ∈ l1
    · have hm2 : m.val ∈ l2 := hperm.mem_iff.mp hm
      simp [hm, hm2]
    · simp [hm]
  have hinv := runOps_inv initNode_inv (l1.map EOp.raiseOp ++ l2.map EOp.solveOp)
  have hbytes : ∀ i, (runOps initNode
      (l1.map EOp.raiseOp ++ l2.map EOp.solveOp)).emergency_buffer i = 0 := by
    intro i
    refine byte_zero_of_bits _ (hinv.1 i) (fun k hk => ?_)
    rw [testBit_as_bitOf _ i hk]
    exact hbits _
  apply EmergencyNode_t.ext
  · funext i
    rw [hbytes i]
    rfl
  · rw [hinv.2]
    unfold popcount
    rw [Finset.sum_eq_zero]
    · rfl
    · intro i _
      rw [hbytes i]
      rfl

/-- Witness for C6: raise the set 3, 10 and solve it in reversed order. -/
theorem C6_round_trip_witness :
    runOps initNode ([3, 10].map EOp.raiseOp ++ [10, 3].map EOp.solveOp) =
      initNode :=
  C6_round_trip [3, 10] [10, 3] (by decide) (by decide) (by decide)

/-! ## Accounting of the test harness -/

theorem incr_pass (st : TestStats) : IncrementsOne st (passT st) :=
  Or.inl ⟨rfl, rfl⟩

theorem incr_fail (st : TestStats) : IncrementsOne st (failT st) :=
  Or.inr ⟨rfl, rfl⟩

theorem incr_t1 (g : Bool) (st : TestStats) :
    IncrementsOne st (test_class_init_right g st).2 := by
  cases g
  · exact incr_pass st
  · exact incr_fail st

theorem incr_t2 (st : TestStats) : IncrementsOne st (test_node_init_right st) :=
  incr_pass st

theorem incr_t3 (st : TestStats) :
    IncrementsOne st (test_raise_emergency_right st) :=
  incr_pass st

theorem incr_t4 (st : TestStats) :
    IncrementsOne st (test_solve_emergency_right st) :=
  incr_pass st

theorem incr_t5 (st : TestStats) :
    IncrementsOne st (test_raise_solve_inverse st) :=
  incr_pass st

theorem incr_t6 (st : TestStats) :
    IncrementsOne st (test_emergency_state_cross_check st) :=
  incr_pass st

theorem incr_t7 (st : TestStats) :
    IncrementsOne st (test_boundary_conditions_error st) :=
  incr_pass st

theorem incr_t8 (st : TestStats) :
    IncrementsOne st (test_solve_nonexistent_error st) :=
  incr_pass st

theorem incr_t9 (st : TestStats) :
    IncrementsOne st (test_destroy_with_active_emergencies st) :=
  incr_pass st

theorem zero_state_of_bits (node : EmergencyNode_t) (hinv : NodeInv node)
    (hbits : ∀ m : Fin NUM_EMERGENCIES, bitOf node m = false) :
    (∀ i, node.emergency_buffer i = 0) ∧ node.emergency_counter = 0 := by
  have hbytes : ∀ i, node.emergency_buffer i = 0 := fun i =>
    byte_zero_of_bits _ (hinv.1 i)
      (fun k hk => by rw [testBit_as_bitOf _ i hk]; exact hbits _)
  refine ⟨hbytes, ?_⟩
  rw [hinv.2]
  unfold popcount
  exact Finset.sum_eq_zero (fun i _ => by rw [hbytes i]; rfl)

theorem perf_counter_zero :
    ((List.range 10000).foldl (fun n i => (EmergencyNode_solve n (i % 64)).2)
      ((List.range 10000).foldl (fun n i => (EmergencyNode_raise n (i % 64)).2)
        (EmergencyNode_init initNode).2)).emergency_counter = 0 := by
  have hr : ∀ node : EmergencyNode_t,
      (List.range 10000).foldl (fun n i => (EmergencyNode_raise n (i % 64)).2)
        node =
      runOps node
        (((List.range 10000).map (fun i => i % 64)).map EOp.raiseOp) := by
    intro node
    rw [runOps, List.foldl_map, List.foldl_map]
    rfl
  have hs : ∀ node : EmergencyNode_t,
      (List.range 10000).foldl (fun n i => (EmergencyNode_solve n (i % 64)).2)
        node =
      runOps node
        (((List.range 10000).map (fun i => i % 64)).map EOp.solveOp) := by
    intro node
    rw [runOps, List.foldl_map, List.foldl_map]
    rfl
  have hinit : (EmergencyNode_init initNode).2 = initNode := rfl
  rw [hinit, hr, hs]
  have hL : ∀ x ∈ (List.range 10000).map (fun i => i % 64),
      x < NUM_EMERGENCIES := by
    intro x hx
    obtain ⟨i, hi1, hi2⟩ := List.mem_map.mp hx
    show x < 64
    omega
  have hinv := runOps_inv (runOps_inv initNode_inv
    (((List.range 10000).map (fun i => i % 64)).map EOp.raiseOp))
    (((List.range 10000).map (fun i => i % 64)).map EOp.solveOp)
  have hbits : ∀ m : Fin NUM_EMERGENCIES,
      bitOf (runOps (runOps initNode
        (((List.range 10000).map (fun i => i % 64)).map EOp.raiseOp))
        (((List.range 10000).map (fun i => i % 64)).map EOp.solveOp)) m
        = false := by
    intro m
    rw [bitOf_runSolves _ _ m hL, bitOf_runRaises _ _ m hL, bitOf_initNode]
    simp
  exact (zero_state_of_bits _ hinv hbits).2

theorem incr_t10 (st : TestStats) :
    IncrementsOne st (test_performance_many_operations st) := by
  unfold test_performance_many_operations
  simp only [perf_counter_zero]
  rw [if_neg (not_not_intro trivial)]
  exact incr_pass st

theorem incr_t11 (c : Nat) (st : TestStats) :
    IncrementsOne st (test_multithreaded_raise c st) := by
  unfold test_multithreaded_raise
  split_ifs <;> first | exact incr_fail st | exact incr_pass st

theorem incr_t12 (c : Nat) (st : TestStats) :
    IncrementsOne st (test_multithreaded_raise_and_solve c st) := by
  unfold test_multithreaded_raise_and_solve
  split_ifs <;> first | exact incr_fail st | exact incr_pass st

theorem incr_t13 (c : Nat) (st : TestStats) :
    IncrementsOne st (test_multithreaded_stress c st) := by
  unfold test_multithreaded_stress
  split_ifs <;> first | exact incr_fail st | exact incr_pass st

theorem incr_t14 (st : TestStats) :
    IncrementsOne st (test_all_emergencies_simultaneously st) :=
  incr_pass st

theorem incr_t15 (st : TestStats) :
    IncrementsOne st (test_byte_boundary_emergencies st) :=
  incr_pass st

theorem foldl_incr : ∀ (fs : List (TestStats → TestStats)) (st : TestStats),
    (∀ f ∈ fs, ∀ s, IncrementsOne s (f s)) →
    (fs.foldl (fun s f => f s) st).tests_passed +
      (fs.foldl (fun s f => f s) st).tests_failed =
    st.tests_passed + st.tests_failed + fs.length := by
  intro fs
  induction fs with
  | nil => intro st _; simp
  | cons f t ih =>
    intro st hall
    have hf := hall f (List.mem_cons_self f t) st
    have ht : ∀ g ∈ t, ∀ s, IncrementsOne s (g s) :=
      fun g hg => hall g (List.mem_cons_of_mem f hg)
    have hrec := ih (f st) ht
    simp only [List.foldl_cons, List.length_cons]
    rw [hrec]
    rcases hf with ⟨h1, h2⟩ | ⟨h1, h2⟩ <;> rw [h1, h2] <;>
      clear hrec hall ht ih h1 h2 <;> omega

theorem main_run_as_foldl (c1 c2 c3 : Nat) :
    main_run c1 c2 c3 = (mainTests c1 c2 c3).foldl (fun s f => f s)
      { tests_passed := 0, tests_failed := 0 } := rfl

/-- C10: every test-function invocation moves exactly one of the harness
counters up by one — `TEST_ASSERT` returns on the first failing condition
before any later assertion or `TEST_PASS` runs, and `TEST_PASS` runs only
when every assertion held — so after `main` has invoked its fifteen test
functions, `tests_passed + tests_failed = 15`, and `main` exits with 1
exactly when `tests_failed > 0`, otherwise 0. -/
theorem C10_harness_accounting :
    (∀ g st, IncrementsOne st (test_class_init_right g st).2) ∧
    (∀ st, IncrementsOne st (test_node_init_right st)) ∧
    (∀ st, IncrementsOne st (test_raise_emergency_right st)) ∧
    (∀ st, IncrementsOne st (test_solve_emergency_right st)) ∧
    (∀ st, IncrementsOne st (test_raise_solve_inverse st)) ∧
    (∀ st, IncrementsOne st (test_emergency_state_cross_check st)) ∧
    (∀ st, IncrementsOne st (test_boundary_conditions_error st)) ∧
    (∀ st, IncrementsOne st (test_solve_nonexistent_error st)) ∧
    (∀ st, IncrementsOne st (test_destroy_with_active_emergencies st)) ∧
    (∀ st, IncrementsOne st (test_performance_many_operations st)) ∧
    (∀ c st, IncrementsOne st (test_multithreaded_raise c st)) ∧
    (∀ c st, IncrementsOne st (test_multithreaded_raise_and_solve c st)) ∧
    (∀ c st, IncrementsOne st (test_multithreaded_stress c st)) ∧
    (∀ st, IncrementsOne st (test_all_emergencies_simultaneously st)) ∧
    (∀ st, IncrementsOne st (test_byte_boundary_emergencies st)) ∧
    (∀ c1 c2 c3, (main_run c1 c2 c3).tests_passed +
      (main_run c1 c2 c3).tests_failed = 15) ∧
    (∀ c1 c2 c3, main_exit_status c1 c2 c3 =
      if 0 < (main_run c1 c2 c3).tests_failed then 1 else 0) := by
  refine ⟨incr_t1, incr_t2, incr_t3, incr_t4, incr_t5, incr_t6, incr_t7,
    incr_t8, incr_t9, incr_t10, incr_t11, incr_t12, incr_t13, incr_t14,
    incr_t15, ?_, fun c1 c2 c3 => rfl⟩
  intro c1 c2 c3
  have hall : ∀ f ∈ mainTests c1 c2 c3, ∀ s, IncrementsOne s (f s) := by
    intro f hf
    simp only [mainTests, List.mem_cons, List.not_mem_nil, or_false] at hf
    rcases hf with rfl | rfl | rfl | rfl | rfl | rfl | rfl | rfl | rfl | rfl |
      rfl | rfl | rfl | rfl | rfl
    exacts [incr_t1 false, incr_t2, incr_t3, incr_t4, incr_t5, incr_t6,
      incr_t7, incr_t8, incr_t9, incr_t10, incr_t11 c1, incr_t12 c2,
      incr_t13 c3, incr_t14, incr_t15]
  rw [main_run_as_foldl c1 c2 c3, foldl_incr _ _ hall]
  rfl
